import Mathlib

/-!
Verification of the speech CLI core: WAV framing, recorder stop semantics,
whisper output parsing, retry policy, provider selection and synthesis
credential checking, modelled shallowly from the TypeScript sources
(`src/stt/transcription.ts`, `src/stt/audio.ts`, `src/stt-index.ts`).

Bytes are modelled as `Nat` values below 256, buffers as `List Nat`.
Node `Buffer.writeUInt16LE` / `writeUInt32LE` range-check their argument
and throw `ERR_OUT_OF_RANGE` outside `[0, 65535]` / `[0, 4294967295]`;
the checked writers below mirror that.
-/

namespace Speech

/-- Little-endian bytes of a 16-bit value, as written by a successful
`Buffer.writeUInt16LE`. -/
def u16le (v : Nat) : List Nat :=
  [v % 256, v / 256 % 256]

/-- Little-endian bytes of a 32-bit value, as written by a successful
`Buffer.writeUInt32LE`. -/
def u32le (v : Nat) : List Nat :=
  [v % 256, v / 256 % 256, v / 65536 % 256, v / 16777216 % 256]

/-- Node `Buffer.writeUInt16LE`: range-checks the value, then writes two
little-endian bytes. -/
def writeUInt16LE (v : Nat) : Except String (List Nat) :=
  if v ≤ 65535 then .ok (u16le v) else .error "ERR_OUT_OF_RANGE"

/-- Node `Buffer.writeUInt32LE`: range-checks the value, then writes four
little-endian bytes. -/
def writeUInt32LE (v : Nat) : Except String (List Nat) :=
  if v ≤ 4294967295 then .ok (u32le v) else .error "ERR_OUT_OF_RANGE"

/-- ASCII bytes of `"RIFF"`. -/
def riffTag : List Nat := [82, 73, 70, 70]

/-- ASCII bytes of `"WAVE"`. -/
def waveTag : List Nat := [87, 65, 86, 69]

/-- ASCII bytes of `"fmt "`. -/
def fmtTag : List Nat := [102, 109, 116, 32]

/-- ASCII bytes of `"data"`. -/
def dataTag : List Nat := [100, 97, 116, 97]

/-- The `pcmToWav` function of `src/stt/transcription.ts` (lines 26–56):
computes `blockAlign`, `byteRate`, `dataSize`, `fileSize`, then writes the
44-byte header at contiguous offsets (0: "RIFF", 4: fileSize, 8: "WAVE",
12: "fmt ", 16: 16, 20: 1, 22: channels, 24: sampleRate, 28: byteRate,
32: blockAlign, 34: 16, 36: "data", 40: dataSize) and concatenates the PCM
buffer after it. The checked writes are sequenced in source order, so the
first out-of-range write is the error that surfaces. -/
def pcmToWav (pcmBuffer : List Nat) (sampleRate channels : Nat) :
    Except String (List Nat) := do
  let bitsPerSample := 16
  let blockAlign := channels * (bitsPerSample / 8)
  let byteRate := sampleRate * blockAlign
  let dataSize := pcmBuffer.length
  let headerSize := 44
  let fileSize := headerSize + dataSize - 8
  let fileSizeB ← writeUInt32LE fileSize
  let fmtSizeB ← writeUInt32LE 16
  let fmtTagB ← writeUInt16LE 1
  let channelsB ← writeUInt16LE channels
  let sampleRateB ← writeUInt32LE sampleRate
  let byteRateB ← writeUInt32LE byteRate
  let blockAlignB ← writeUInt16LE blockAlign
  let bpsB ← writeUInt16LE bitsPerSample
  let dataSizeB ← writeUInt32LE dataSize
  return riffTag ++ fileSizeB ++ waveTag ++
    fmtTag ++ fmtSizeB ++ fmtTagB ++ channelsB ++ sampleRateB ++
    byteRateB ++ blockAlignB ++ bpsB ++
    dataTag ++ dataSizeB ++ pcmBuffer

/-! ### Audio recorder (`src/stt/audio.ts`) -/

/-- Mutable state closed over by `createAudioRecorder`: the `chunks` array
and the `recordingStarted` flag. -/
structure RecorderState where
  chunks : List (List Nat)
  recordingStarted : Bool
deriving DecidableEq, Repr

/-- Recorder state right after `createAudioRecorder` spawns the capture
subprocess: empty `chunks`, `recordingStarted = false`. -/
def initialRecorder : RecorderState :=
  { chunks := [], recordingStarted := false }

/-- The `process.stdout.on("data", ...)` handler: pushes the chunk and sets
`recordingStarted`. -/
def onData (s : RecorderState) (chunk : List Nat) : RecorderState :=
  { chunks := s.chunks ++ [chunk], recordingStarted := true }

/-- Arrival of a sequence of stdout data events, in order. -/
def arrive (s : RecorderState) (ds : List (List Nat)) : RecorderState :=
  ds.foldl onData s

/-- The `process.on("close", ...)` handler inside `stop`: rejects with
"No audio data captured" when `!recordingStarted || chunks.length === 0`,
otherwise resolves with `Buffer.concat(chunks)`. -/
def stopOnClose (s : RecorderState) : Except String (List Nat) :=
  if !s.recordingStarted || s.chunks.length == 0 then
    .error "No audio data captured"
  else
    .ok s.chunks.flatten

/-- Node `ChildProcess` as far as `stop` observes it: the `killed` flag,
which Node sets to `true` as soon as `kill()` successfully sends a signal
(it does not mean the process has exited). -/
structure ProcModel where
  killed : Bool
deriving DecidableEq, Repr

/-- Node `subprocess.kill(signal)`: when the send succeeds, sets `killed`. -/
def killSignal (p : ProcModel) (sendOk : Bool) : ProcModel :=
  { killed := p.killed || sendOk }

/-- How the promise returned by `stop` settles. -/
inductive StopSettle where
  | resolved (buf : List Nat)
  | rejectNoAudio
  | rejectStopTimeout
  | pending
deriving DecidableEq, Repr

/-- What the close handler contributes once the close event fires. -/
def settleClose (s : RecorderState) : StopSettle :=
  match stopOnClose s with
  | .error _ => .rejectNoAudio
  | .ok buf => .resolved buf

/-- The promise body of `stop` (`src/stt/audio.ts` lines 67–94):
`process.kill("SIGTERM")` first (setting `killed` on a successful send),
then the promise settles with whichever of the close event (at
`closeTime` ms, `none` when the subprocess never exits) and the 2000 ms
timer fires first; the timer only rejects with "Recording stop timeout"
(after a SIGKILL) when `!process.killed` holds at that moment. -/
def stopRun (s : RecorderState) (sigtermSendOk : Bool)
    (closeTime : Option Nat) : StopSettle :=
  let p := killSignal { killed := false } sigtermSendOk
  match closeTime with
  | some t =>
    if t ≤ 2000 then settleClose s
    else if !p.killed then .rejectStopTimeout else settleClose s
  | none =>
    if !p.killed then .rejectStopTimeout else .pending

/-! ### Whisper output parsing and close handler
(`src/stt/transcription.ts` lines 86–126) -/

/-- JavaScript `stdout.split("\n")` on the character list: splits at every
newline, keeping empty pieces (`"".split` gives `[""]`). -/
def splitNl : List Char → List (List Char)
  | [] => [[]]
  | c :: cs =>
    if c = '\n' then [] :: splitNl cs
    else
      match splitNl cs with
      | [] => [[c]]
      | l :: ls => (c :: l) :: ls

/-- JavaScript `String.prototype.trim`: strip whitespace from both ends. -/
def jsTrim (cs : List Char) : List Char :=
  ((cs.dropWhile Char.isWhitespace).reverse.dropWhile Char.isWhitespace).reverse

/-- JavaScript `line.startsWith("[")`. -/
def startsWithBracket : List Char → Bool
  | '[' :: _ => true
  | _ => false

/-- The stdout parsing in the close handler of `runWhisper` (lines
113–117): split on newlines, drop lines starting with `[` and lines blank
after trimming, trim the survivors, join with single spaces, trim the
result. -/
def parseWhisperStdout (stdout : String) : String :=
  let lines := splitNl stdout.data
  let textLines :=
    (lines.filter fun line =>
      !startsWithBracket line && decide (0 < (jsTrim line).length)).map jsTrim
  ⟨jsTrim (List.intercalate [' '] textLines)⟩

/-- Transcription result record (`TranscriptionResult` in the source);
only `text` is ever produced by the local provider. -/
structure TranscriptionResult where
  text : String
deriving DecidableEq, Repr

/-- JavaScript template rendering of the nullable exit code `${code}`. -/
def codeStr : Option Int → String
  | none => "null"
  | some i => toString i

/-- The `process.on("close", ...)` handler of `runWhisper` (lines
107–120): a non-`0` exit code (including `null`) rejects with
`Whisper failed with code <code>: <stderr>`; exit code `0` resolves with
the parsed stdout text. -/
def runWhisperOnClose (code : Option Int) (stdout stderr : String) :
    Except String TranscriptionResult :=
  if code ≠ some 0 then
    .error ("Whisper failed with code " ++ codeStr code ++ ": " ++ stderr)
  else
    .ok { text := parseWhisperStdout stdout }

/-- Substring containment, used to state "the message contains the
captured standard-error stream". -/
def strContains (hay needle : String) : Prop :=
  ∃ pre suf, hay = pre ++ needle ++ suf

/-! ### Retry wrapper (`src/stt/transcription.ts` lines 178–199) -/

/-- Observable trace of one `transcribeWithRetry` run: the settled result,
how many times `transcribe` was invoked, and the list of waits (in ms)
performed between attempts. -/
structure RetryTrace (α : Type) where
  result : Except String α
  calls : Nat
  waits : List Nat
deriving Repr

/-- The `for (let attempt = 0; attempt < maxRetries; attempt++)` loop of
`transcribeWithRetry`, with the loop guard expressed as the fuel
`maxRetries - attempt`. A successful `transcribe` returns immediately; a
failure records `lastError` and waits 500 ms when `attempt <
maxRetries - 1`; on loop exit it throws
`Failed after <maxRetries> attempts: <lastError?.message>` (a `null`
`lastError` renders as `undefined`). -/
def retryGo {α : Type} (f : Nat → Except String α) (maxRetries : Nat) :
    Nat → Nat → Option String → RetryTrace α
  | 0, _, lastError =>
    { result := .error ("Failed after " ++ toString maxRetries ++
        " attempts: " ++ (match lastError with
          | some m => m
          | none => "undefined")),
      calls := 0, waits := [] }
  | remaining + 1, attempt, _ =>
    match f attempt with
    | .ok r => { result := .ok r, calls := 1, waits := [] }
    | .error e =>
      let rest := retryGo f maxRetries remaining (attempt + 1) (some e)
      { result := rest.result,
        calls := rest.calls + 1,
        waits := (if attempt < maxRetries - 1 then [500] else []) ++ rest.waits }

/-- `transcribeWithRetry(audioBuffer, maxRetries)`: runs the retry loop
from `attempt = 0` with `lastError = null`, attempt `i` invoking the
provider transcription `f i`. -/
def transcribeWithRetry {α : Type} (f : Nat → Except String α)
    (maxRetries : Nat) : RetryTrace α :=
  retryGo f maxRetries maxRetries 0 none

/-! ### Provider selection (`Transcriber` constructor, lines 161–172)
and the ElevenLabs constructor (lines 134–141) -/

/-- Which concrete provider the `Transcriber` constructor instantiated. -/
inductive ProviderKind where
  | whisper
  | elevenlabs
deriving DecidableEq, Repr

/-- The option record handed to the `Transcriber` constructor; absent
fields are `none`. -/
structure TranscriptionOptions where
  provider : Option String
  apiKey : Option String
deriving DecidableEq, Repr

/-- JavaScript truthiness of an optional string: `undefined` and `""` are
falsy. -/
def truthy : Option String → Bool
  | none => false
  | some s => !(s == "")

/-- The `Transcriber` constructor: `options.provider || "whisper"`, then
`ElevenLabsProvider` exactly when that equals `"elevenlabs"` (its
constructor throws without a truthy `apiKey`), otherwise
`WhisperProvider` (whose constructor always succeeds, falling back to a
default model path). -/
def transcriberInit (options : TranscriptionOptions) :
    Except String ProviderKind :=
  let providerType :=
    match options.provider with
    | none => "whisper"
    | some p => if p == "" then "whisper" else p
  if providerType == "elevenlabs" then
    if truthy options.apiKey then .ok .elevenlabs
    else .error "ElevenLabs provider requires apiKey"
  else
    .ok .whisper

/-! ### Speech synthesis credential check
(`generateSpeech` in `src/stt-index.ts`, lines 275–299) -/

/-- The `generateSpeech` control flow: read `ELEVENLABS_API_KEY` from the
environment; when it is absent (or empty, both falsy in `if (!apiKey)`)
throw `ELEVENLABS_API_KEY environment variable is not set` before any
endpoint call; otherwise perform exactly one `textToSpeech.convert` call
(its outcome supplied as `convert`) and concatenate the streamed chunks.
The second component counts endpoint calls made. -/
def generateSpeech (apiKey : Option String)
    (convert : Except String (List (List Nat))) :
    (Except String (List Nat)) × Nat :=
  if !truthy apiKey then
    (.error "ELEVENLABS_API_KEY environment variable is not set", 0)
  else
    match convert with
    | .error e => (.error e, 1)
    | .ok chunks => (.ok chunks.flatten, 1)

/-! ### Theorems -/

/-- Under parameters whose derived header fields fit the unsigned 16/32-bit
writes, every checked write succeeds and `pcmToWav` returns the explicit
header concatenation. -/
theorem pcmToWav_eq_ok (p : List Nat) (sr ch : Nat)
    (hch1 : 1 ≤ ch) (hch : ch ≤ 32767)
    (hbr : sr * ch * 2 ≤ 4294967295)
    (hlen : 36 + p.length ≤ 4294967295) :
    pcmToWav p sr ch =
      .ok (riffTag ++ u32le (44 + p.length - 8) ++ waveTag ++
        fmtTag ++ u32le 16 ++ u16le 1 ++ u16le ch ++ u32le sr ++
        u32le (sr * (ch * 2)) ++ u16le (ch * 2) ++ u16le 16 ++
        dataTag ++ u32le p.length ++ p) := by
  have hsr : sr ≤ 4294967295 := by
    have h2 : sr * 1 ≤ sr * (ch * 2) := Nat.mul_le_mul_left sr (by omega)
    have h3 : sr * (ch * 2) = sr * ch * 2 := by ring
    omega
  have hfs : 44 + p.length - 8 ≤ 4294967295 := by omega
  have hch2 : ch ≤ 65535 := by omega
  have hba : ch * 2 ≤ 65535 := by omega
  have hbr' : sr * (ch * 2) ≤ 4294967295 := by
    have h3 : sr * (ch * 2) = sr * ch * 2 := by ring
    omega
  have hds : p.length ≤ 4294967295 := by omega
  simp [pcmToWav, writeUInt16LE, writeUInt32LE, hfs, hch2, hba, hbr', hds, hsr]
  rfl

set_option maxHeartbeats 2000000 in
/-- Claim C1: for every PCM byte sequence `p` and valid parameters,
`pcmToWav p sampleRate channels` returns a byte sequence of length
`44 + len p` with "RIFF" at 0, little-endian `36 + len p` at 4, "WAVE" at
8, "fmt " at 12, `16` at 16, `1` at 20, `channels` at 22, `sampleRate` at
24, `sampleRate * channels * 2` at 28, `channels * 2` at 32, `16` at 34,
"data" at 36, little-endian `len p` at 40, and `p` verbatim from 44 on. -/
theorem pcmToWav_header_layout (p : List Nat) (sr ch : Nat)
    (hch1 : 1 ≤ ch) (hch : ch ≤ 32767)
    (hbr : sr * ch * 2 ≤ 4294967295)
    (hlen : 36 + p.length ≤ 4294967295) :
    ∃ w, pcmToWav p sr ch = .ok w ∧
      w.length = 44 + p.length ∧
      w.take 4 = riffTag ∧
      (w.drop 4).take 4 = u32le (36 + p.length) ∧
      (w.drop 8).take 4 = waveTag ∧
      (w.drop 12).take 4 = fmtTag ∧
      (w.drop 16).take 4 = u32le 16 ∧
      (w.drop 20).take 2 = u16le 1 ∧
      (w.drop 22).take 2 = u16le ch ∧
      (w.drop 24).take 4 = u32le sr ∧
      (w.drop 28).take 4 = u32le (sr * ch * 2) ∧
      (w.drop 32).take 2 = u16le (ch * 2) ∧
      (w.drop 34).take 2 = u16le 16 ∧
      (w.drop 36).take 4 = dataTag ∧
      (w.drop 40).take 4 = u32le p.length ∧
      w.drop 44 = p := by
  refine ⟨_, pcmToWav_eq_ok p sr ch hch1 hch hbr hlen, ?_, ?_, ?_, ?_, ?_,
    ?_, ?_, ?_, ?_, ?_, ?_, ?_, ?_, ?_, ?_⟩
  · simp [riffTag, waveTag, fmtTag, dataTag, u16le, u32le]
    omega
  · rfl
  · rw [show 36 + p.length = 44 + p.length - 8 by omega]
    rfl
  · rfl
  · rfl
  · rfl
  · rfl
  · rfl
  · rfl
  · rw [show sr * ch * 2 = sr * (ch * 2) by ring]
    rfl
  · rfl
  · rfl
  · rfl
  · rfl
  · rfl

/-- Witness for claim C1 at a concrete input. -/
theorem pcmToWav_header_layout_witness :
    ∃ w, pcmToWav [10, 20] 16000 1 = .ok w ∧
      w.length = 44 + 2 ∧
      w.take 4 = riffTag ∧
      (w.drop 4).take 4 = u32le 38 ∧
      (w.drop 8).take 4 = waveTag ∧
      (w.drop 12).take 4 = fmtTag ∧
      (w.drop 16).take 4 = u32le 16 ∧
      (w.drop 20).take 2 = u16le 1 ∧
      (w.drop 22).take 2 = u16le 1 ∧
      (w.drop 24).take 4 = u32le 16000 ∧
      (w.drop 28).take 4 = u32le 32000 ∧
      (w.drop 32).take 2 = u16le 2 ∧
      (w.drop 34).take 2 = u16le 16 ∧
      (w.drop 36).take 4 = dataTag ∧
      (w.drop 40).take 4 = u32le 2 ∧
      w.drop 44 = [10, 20] :=
  pcmToWav_header_layout [10, 20] 16000 1 (by decide) (by decide)
    (by decide) (by decide)

/-- Claim C5, counterexample: `pcmToWav` is not total over every positive
`channels`: with `channels = 32768` the `writeUInt16LE` of
`blockAlign = 65536` is out of range, so the function throws instead of
returning normally. -/
theorem pcmToWav_not_total :
    pcmToWav [] 16000 32768 = .error "ERR_OUT_OF_RANGE" := by rfl

/-- Claim C5 as amended: `pcmToWav` returns normally for every byte
sequence and positive parameters whose derived header fields fit the
unsigned header writes (`channels ≤ 32767`,
`sampleRate * channels * 2 ≤ 4294967295`, `36 + len pcm ≤ 4294967295`),
and `pcmToWav [] 16000 1` yields exactly 44 bytes whose dataSize field at
offset 40 is 0. -/
theorem pcmToWav_total_in_range (p : List Nat) (sr ch : Nat)
    (hch1 : 1 ≤ ch) (hch : ch ≤ 32767)
    (hbr : sr * ch * 2 ≤ 4294967295)
    (hlen : 36 + p.length ≤ 4294967295) :
    (∃ w, pcmToWav p sr ch = .ok w) ∧
    (∃ w, pcmToWav [] 16000 1 = .ok w ∧ w.length = 44 ∧
      (w.drop 40).take 4 = u32le 0) := by
  refine ⟨⟨_, pcmToWav_eq_ok p sr ch hch1 hch hbr hlen⟩, ?_⟩
  refine ⟨_, pcmToWav_eq_ok [] 16000 1 (by decide) (by decide) (by decide)
    (by decide), ?_, ?_⟩
  · rfl
  · rfl

/-- Witness for the amended claim C5 at a concrete input. -/
theorem pcmToWav_total_in_range_witness :
    (∃ w, pcmToWav [7] 8000 2 = .ok w) ∧
    (∃ w, pcmToWav [] 16000 1 = .ok w ∧ w.length = 44 ∧
      (w.drop 40).take 4 = u32le 0) :=
  pcmToWav_total_in_range [7] 8000 2 (by decide) (by decide) (by decide)
    (by decide)

/-- Accumulated chunks after a sequence of data events: arrival order is
preserved by appending. -/
theorem arrive_chunks (s : RecorderState) (ds : List (List Nat)) :
    (arrive s ds).chunks = s.chunks ++ ds := by
  induction ds generalizing s with
  | nil => simp [arrive]
  | cons d ds ih =>
    have h : arrive s (d :: ds) = arrive (onData s d) ds := rfl
    rw [h, ih, onData]
    simp

/-- The `recordingStarted` flag is set exactly when at least one data
event arrived. -/
theorem arrive_started (s : RecorderState) (ds : List (List Nat)) :
    (arrive s ds).recordingStarted = (s.recordingStarted || !ds.isEmpty) := by
  induction ds generalizing s with
  | nil => simp [arrive]
  | cons d ds ih =>
    have h : arrive s (d :: ds) = arrive (onData s d) ds := rfl
    rw [h, ih, onData]
    simp

/-- Claim C2: stopping a recorder that never received a data chunk fails
with the no-audio error, and stopping after chunks of sizes `s1..sn`
arrived yields the concatenation of the chunks in arrival order, of
length `sum(s1..sn)`. -/
theorem stop_concat_or_no_audio (ds : List (List Nat)) :
    (ds = [] →
      stopOnClose (arrive initialRecorder ds) =
        .error "No audio data captured") ∧
    (ds ≠ [] →
      stopOnClose (arrive initialRecorder ds) = .ok ds.flatten ∧
      ds.flatten.length = (ds.map List.length).sum) := by
  constructor
  · rintro rfl
    rfl
  · intro h
    have hc := arrive_chunks initialRecorder ds
    have hs := arrive_started initialRecorder ds
    have hne : ds.isEmpty = false := by
      cases ds with
      | nil => exact absurd rfl h
      | cons d ds => rfl
    have hc' : (arrive initialRecorder ds).chunks = ds := by
      simpa [initialRecorder] using hc
    have hs' : (arrive initialRecorder ds).recordingStarted = true := by
      simpa [initialRecorder, hne] using hs
    constructor
    · simp [stopOnClose, hc', hs', hne, h]
    · simp

/-- Witness for claim C2 at a concrete chunk sequence. -/
theorem stop_concat_or_no_audio_witness :
    stopOnClose (arrive initialRecorder [[1, 2], [3]]) = .ok [1, 2, 3] ∧
    [[1, 2], [3]].flatten.length = ([[1, 2], [3]].map List.length).sum :=
  (stop_concat_or_no_audio [[1, 2], [3]]).2 (by decide)

/-- Unfolding equation of the retry loop at fuel `0` (loop guard
exhausted). -/
theorem retryGo_zero {α : Type} (f : Nat → Except String α)
    (maxRetries attempt : Nat) (lastError : Option String) :
    retryGo f maxRetries 0 attempt lastError =
      { result := .error ("Failed after " ++ toString maxRetries ++
          " attempts: " ++ (match lastError with
            | some m => m
            | none => "undefined")),
        calls := 0, waits := [] } := rfl

/-- Unfolding equation of the retry loop at positive fuel. -/
theorem retryGo_succ {α : Type} (f : Nat → Except String α)
    (maxRetries r attempt : Nat) (lastError : Option String) :
    retryGo f maxRetries (r + 1) attempt lastError =
      match f attempt with
      | .ok x => { result := .ok x, calls := 1, waits := [] }
      | .error e =>
        let rest := retryGo f maxRetries r (attempt + 1) (some e)
        { result := rest.result,
          calls := rest.calls + 1,
          waits := (if attempt < maxRetries - 1 then [500] else []) ++
            rest.waits } := rfl

/-- When every attempt from `attempt` on fails, the loop makes one call
per remaining attempt, waits between attempts only, and fails with the
message of the last attempt's error. -/
theorem retryGo_all_fail {α : Type} (f : Nat → Except String α) (N : Nat)
    (e : String) :
    ∀ d attempt le, attempt + 1 + d = N →
      (∀ i, attempt ≤ i → i < N → ∃ m, f i = .error m) →
      f (N - 1) = .error e →
      retryGo f N (d + 1) attempt le =
        { result := .error ("Failed after " ++ toString N ++
            " attempts: " ++ e),
          calls := d + 1,
          waits := List.replicate d 500 } := by
  intro d
  induction d with
  | zero =>
    intro attempt le hN hfail hlast
    have ha : N - 1 = attempt := by omega
    rw [ha] at hlast
    rw [retryGo_succ, hlast]
    simp [retryGo_zero, show ¬attempt < N - 1 by omega]
  | succ d ih =>
    intro attempt le hN hfail hlast
    obtain ⟨m, hm⟩ := hfail attempt (le_refl attempt) (by omega)
    rw [retryGo_succ, hm]
    simp only []
    rw [ih (attempt + 1) (some m) (by omega)
      (fun i h1 h2 => hfail i (by omega) h2) hlast]
    simp [show attempt < N - 1 by omega, List.replicate_succ]

/-- Claim C3: a transcription function failing on every attempt with
`maxAttempts = N ≥ 1` is invoked exactly `N` times; the wrapper fails
with the retry-exhausted message carrying the Nth (last) error's message
and waits 500 ms between attempts but not after the final one. -/
theorem retry_exhaustion {α : Type} (f : Nat → Except String α) (N : Nat)
    (e : String) (hN : 1 ≤ N)
    (hfail : ∀ i, i < N → ∃ m, f i = .error m)
    (hlast : f (N - 1) = .error e) :
    transcribeWithRetry f N =
      { result := .error ("Failed after " ++ toString N ++
          " attempts: " ++ e),
        calls := N,
        waits := List.replicate (N - 1) 500 } := by
  have h := retryGo_all_fail f N e (N - 1) 0 none (by omega)
    (fun i _ h2 => hfail i h2) hlast
  rw [show N - 1 + 1 = N by omega] at h
  exact h

/-- Witness for claim C3: two always-failing attempts. -/
theorem retry_exhaustion_witness :
    transcribeWithRetry
        (fun i => (.error (toString i) : Except String Nat)) 2 =
      { result := .error ("Failed after " ++ toString 2 ++
          " attempts: " ++ "1"),
        calls := 2,
        waits := List.replicate 1 500 } :=
  retry_exhaustion (fun i => .error (toString i)) 2 "1" (by omega)
    (fun i _ => ⟨toString i, rfl⟩) rfl

/-- Claim C7: a transcription function failing on attempts 1 and 2 and
succeeding on attempt 3 with `maxAttempts = 3` makes the wrapper return
the success result, after a fixed 500 ms wait between consecutive
attempts (no growth). -/
theorem retry_success_third {α : Type} (f : Nat → Except String α)
    (e0 e1 : String) (r : α)
    (h0 : f 0 = .error e0) (h1 : f 1 = .error e1) (h2 : f 2 = .ok r) :
    transcribeWithRetry f 3 =
      { result := .ok r, calls := 3, waits := [500, 500] } := by
  show retryGo f 3 (2 + 1) 0 none = _
  rw [retryGo_succ, h0]
  simp only []
  rw [retryGo_succ, h1]
  simp only []
  rw [retryGo_succ, h2]
  simp

/-- Witness for claim C7: failure twice, then success. -/
theorem retry_success_third_witness :
    transcribeWithRetry
        (fun i => if i = 2 then (.ok 7 : Except String Nat)
          else .error (toString i)) 3 =
      { result := .ok 7, calls := 3, waits := [500, 500] } :=
  retry_success_third
    (fun i => if i = 2 then (.ok 7 : Except String Nat)
      else .error (toString i)) "0" "1" 7 rfl rfl rfl

/-- Claim C4: the local provider parses the recognition subprocess
standard output by dropping lines that start with `[` and blank lines,
trimming the rest, joining with single spaces and trimming; in particular
`"[00:00:00] Hello\nworld\n"` parses to `"world"`, and output made only
of bracketed or blank lines parses to the empty string. -/
theorem whisper_stdout_parse :
    parseWhisperStdout "[00:00:00] Hello\nworld\n" = "world" ∧
    parseWhisperStdout "[00:00:00] a\n[00:00:01] b\n" = "" ∧
    ∀ s : String,
      (∀ l ∈ splitNl s.data, startsWithBracket l = true ∨ jsTrim l = []) →
      parseWhisperStdout s = "" := by
  refine ⟨by decide, by decide, ?_⟩
  intro s h
  simp only [parseWhisperStdout]
  have hf : (splitNl s.data).filter
      (fun line => !startsWithBracket line &&
        decide (0 < (jsTrim line).length)) = [] := by
    rw [List.filter_eq_nil_iff]
    intro l hl
    rcases h l hl with h1 | h1 <;> simp [h1]
  rw [hf]
  rfl

/-- Witness for the bracketed-only part of claim C4. -/
theorem whisper_stdout_parse_witness :
    parseWhisperStdout "[00:00:00] only noise\n" = "" :=
  whisper_stdout_parse.2.2 "[00:00:00] only noise\n" (by decide)

/-- Claim C6: the 2-second force-kill branch of `stop` is dead code.
Node sets `ChildProcess.killed` as soon as the SIGTERM of `stop` is
successfully sent, so the timer's `!process.killed` guard is always
false afterwards: when the subprocess never exits, `stop` stays pending
forever instead of force-killing and failing with the stop-timeout
error. -/
theorem stop_timeout_never_fires :
    stopRun { chunks := [[1, 2]], recordingStarted := true } true none =
      StopSettle.pending ∧
    StopSettle.pending ≠ StopSettle.rejectStopTimeout :=
  ⟨rfl, by decide⟩

/-- Claim C8: a non-zero exit of the recognition subprocess makes the
close handler fail with a message that contains the captured standard
error stream. -/
theorem whisper_nonzero_exit (code : Option Int) (stdout stderr : String)
    (h : code ≠ some 0) :
    runWhisperOnClose code stdout stderr =
      .error ("Whisper failed with code " ++ codeStr code ++ ": " ++
        stderr) ∧
    strContains
      ("Whisper failed with code " ++ codeStr code ++ ": " ++ stderr)
      stderr := by
  constructor
  · simp [runWhisperOnClose, h]
  · exact ⟨"Whisper failed with code " ++ codeStr code ++ ": ", "",
      by simp⟩

/-- Witness for claim C8: exit code 1 with stderr "model not found". -/
theorem whisper_nonzero_exit_witness :
    runWhisperOnClose (some 1) "" "model not found" =
      .error ("Whisper failed with code " ++ codeStr (some 1) ++ ": " ++
        "model not found") ∧
    strContains
      ("Whisper failed with code " ++ codeStr (some 1) ++ ": " ++
        "model not found")
      "model not found" :=
  whisper_nonzero_exit (some 1) "" "model not found" (by decide)

/-- Claim C9: with no API key configured in the environment,
`generateSpeech` fails with the missing-credential error and makes zero
calls to the text-to-speech endpoint. -/
theorem generateSpeech_missing_credential
    (convert : Except String (List (List Nat))) :
    generateSpeech none convert =
      (.error "ELEVENLABS_API_KEY environment variable is not set", 0) :=
  rfl

/-- Claim C10: a provider option that is absent or is any string other
than "elevenlabs" selects the local whisper provider and construction
succeeds without an API key; exactly "elevenlabs" selects the cloud
provider, which throws without a (truthy) apiKey and succeeds with
one. -/
theorem transcriber_provider_selection :
    (∀ o : TranscriptionOptions,
      (∀ p, o.provider = some p → p ≠ "elevenlabs") →
      transcriberInit o = .ok .whisper) ∧
    (∀ o : TranscriptionOptions, o.provider = some "elevenlabs" →
      ((o.apiKey = none ∨ o.apiKey = some "") →
        transcriberInit o = .error "ElevenLabs provider requires apiKey") ∧
      (∀ k, o.apiKey = some k → k ≠ "" →
        transcriberInit o = .ok .elevenlabs)) := by
  constructor
  · rintro ⟨prov, key⟩ h
    cases prov with
    | none => rfl
    | some p =>
      have hp : p ≠ "elevenlabs" := h p rfl
      by_cases he : p = ""
      · subst he
        rfl
      · simp [transcriberInit, he, hp]
  · rintro ⟨prov, key⟩ h
    simp only [] at h
    subst h
    constructor
    · rintro (hk | hk) <;> simp only [] at hk <;> subst hk <;> rfl
    · rintro k hk hne
      simp only [] at hk
      subst hk
      simp [transcriberInit, truthy, hne]

/-- Witness for claim C10 at concrete option records. -/
theorem transcriber_provider_selection_witness :
    transcriberInit { provider := some "whisper", apiKey := none } =
      .ok .whisper ∧
    transcriberInit { provider := some "elevenlabs", apiKey := none } =
      .error "ElevenLabs provider requires apiKey" := by
  constructor
  · refine transcriber_provider_selection.1
      { provider := some "whisper", apiKey := none } ?_
    intro p hp
    have h := Option.some.inj hp
    subst h
    decide
  · exact (transcriber_provider_selection.2
      { provider := some "elevenlabs", apiKey := none } rfl).1 (Or.inl rfl)

end Speech
